import Mathlib

/-!
Verification development for the TurboMIDI protocol engine
(`TurboMidi.hpp`).  The C++ header is shallowly embedded: bytes are
natural numbers (always < 256 on real inputs), the engine's mutable
fields become a `TurboMIDI` structure threaded explicitly, and the
platform side effects (sending bytes, reconfiguring the baud rate,
firing the host callbacks, blocking delays) are recorded as an event
list.  Each definition mirrors the member function of the same name in
the source.
-/

namespace TurboMidi

/-- `SYSEX_START` constant (0xF0). -/
def SYSEX_START : Nat := 0xF0

/-- `SYSEX_END` constant (0xF7). -/
def SYSEX_END : Nat := 0xF7

/-- `ACTIVE_SENSING` constant (0xFE). -/
def ACTIVE_SENSING : Nat := 0xFE

/-- The Elektron manufacturer id `{0x00, 0x20, 0x3C, 0x00, 0x00}`. -/
def ELEKTRON_ID : List Nat := [0x00, 0x20, 0x3C, 0x00, 0x00]

/-- Device roles, as in `enum class DeviceRole`. -/
inductive DeviceRole
  | MASTER
  | SLAVE
  | ANY
  deriving DecidableEq, Repr

/-- Internal test states, as in `enum class TestState`. -/
inductive TestState
  | IDLE
  | WAITING_FOR_TEST
  | WAITING_FOR_TEST2
  deriving DecidableEq, Repr

/--
Speeds are carried as their raw wire identifier (the `uint8_t`
underlying value of `enum class SpeedMultiplier`): 1 = 1x, 2 = 2x,
3 = 3.3x, 4 = 4x, 5 = 5x, 6 = 6.6x, 7 = 8x, 8 = 10x, 9 = 13.3x,
10 = 16x, 11 = 20x.  A `static_cast<SpeedMultiplier>(byte)` in the
source is the identity on this representation, and every `switch` on a
speed compares the underlying value, so `Nat` is a faithful carrier.
-/
abbrev Speed := Nat

/-- `SpeedConfig`: two support masks and two certification masks. -/
structure SpeedConfig where
  mask1 : Nat := 0
  mask2 : Nat := 0
  cert1 : Nat := 0
  cert2 : Nat := 0
  deriving DecidableEq, Repr

/-- `SpeedConfig::addSpeed`. -/
def SpeedConfig.addSpeed (c : SpeedConfig) (speed : Speed) (certified : Bool) : SpeedConfig :=
  match speed with
  | 2  => { c with mask1 := c.mask1 ||| (1 <<< 0), cert1 := if certified then c.cert1 ||| (1 <<< 0) else c.cert1 }
  | 3  => { c with mask1 := c.mask1 ||| (1 <<< 1), cert1 := if certified then c.cert1 ||| (1 <<< 1) else c.cert1 }
  | 4  => { c with mask1 := c.mask1 ||| (1 <<< 2), cert1 := if certified then c.cert1 ||| (1 <<< 2) else c.cert1 }
  | 5  => { c with mask1 := c.mask1 ||| (1 <<< 3), cert1 := if certified then c.cert1 ||| (1 <<< 3) else c.cert1 }
  | 6  => { c with mask1 := c.mask1 ||| (1 <<< 4), cert1 := if certified then c.cert1 ||| (1 <<< 4) else c.cert1 }
  | 7  => { c with mask1 := c.mask1 ||| (1 <<< 5), cert1 := if certified then c.cert1 ||| (1 <<< 5) else c.cert1 }
  | 8  => { c with mask1 := c.mask1 ||| (1 <<< 6), cert1 := if certified then c.cert1 ||| (1 <<< 6) else c.cert1 }
  | 9  => { c with mask2 := c.mask2 ||| (1 <<< 0), cert2 := if certified then c.cert2 ||| (1 <<< 0) else c.cert2 }
  | 10 => { c with mask2 := c.mask2 ||| (1 <<< 1), cert2 := if certified then c.cert2 ||| (1 <<< 1) else c.cert2 }
  | 11 => { c with mask2 := c.mask2 ||| (1 <<< 2), cert2 := if certified then c.cert2 ||| (1 <<< 2) else c.cert2 }
  | _  => c

/-- `SpeedConfig::hasSpeed` (`mask & (1 << k)` as a truth value). -/
def SpeedConfig.hasSpeed (c : SpeedConfig) (speed : Speed) : Bool :=
  match speed with
  | 2  => c.mask1.testBit 0
  | 3  => c.mask1.testBit 1
  | 4  => c.mask1.testBit 2
  | 5  => c.mask1.testBit 3
  | 6  => c.mask1.testBit 4
  | 7  => c.mask1.testBit 5
  | 8  => c.mask1.testBit 6
  | 9  => c.mask2.testBit 0
  | 10 => c.mask2.testBit 1
  | 11 => c.mask2.testBit 2
  | _  => false

/-- `SpeedConfig::isCertified`. -/
def SpeedConfig.isCertified (c : SpeedConfig) (speed : Speed) : Bool :=
  match speed with
  | 2  => c.cert1.testBit 0
  | 3  => c.cert1.testBit 1
  | 4  => c.cert1.testBit 2
  | 5  => c.cert1.testBit 3
  | 6  => c.cert1.testBit 4
  | 7  => c.cert1.testBit 5
  | 8  => c.cert1.testBit 6
  | 9  => c.cert2.testBit 0
  | 10 => c.cert2.testBit 1
  | 11 => c.cert2.testBit 2
  | _  => false

/-- `CommandBuilder::buildCommand`. -/
def buildCommand (cmd : Nat) (payload : List Nat) : List Nat :=
  SYSEX_START :: (ELEKTRON_ID ++ cmd :: payload ++ [SYSEX_END])

/-- `CommandBuilder::buildSpeedReq`. -/
def buildSpeedReq : List Nat := buildCommand 0x10 []

/-- `CommandBuilder::buildSpeedAnswer`. -/
def buildSpeedAnswer (c : SpeedConfig) : List Nat :=
  buildCommand 0x11 [c.mask1, c.mask2, c.cert1, c.cert2]

/-- `CommandBuilder::buildSpeedNeg`. -/
def buildSpeedNeg (testSpeed targetSpeed : Speed) : List Nat :=
  buildCommand 0x12 [testSpeed, targetSpeed]

/-- `CommandBuilder::buildSpeedAck`. -/
def buildSpeedAck : List Nat := buildCommand 0x13 []

/-- `CommandBuilder::buildSpeedTest`. -/
def buildSpeedTest : List Nat :=
  buildCommand 0x14 [0x55, 0x55, 0x55, 0x55, 0x00, 0x00, 0x00, 0x00]

/-- `CommandBuilder::buildSpeedResult`. -/
def buildSpeedResult : List Nat :=
  buildCommand 0x15 [0x55, 0x55, 0x55, 0x55, 0x00, 0x00, 0x00, 0x00]

/-- `CommandBuilder::buildSpeedTest2`. -/
def buildSpeedTest2 : List Nat := buildCommand 0x16 []

/-- `CommandBuilder::buildSpeedResult2`. -/
def buildSpeedResult2 : List Nat := buildCommand 0x17 []

/-- `CommandBuilder::buildSpeedPush`. -/
def buildSpeedPush (speed : Speed) : List Nat := buildCommand 0x20 [speed]

/-- `TurboMIDI::getBaudRate`. -/
def getBaudRate (speed : Speed) : Nat :=
  match speed with
  | 1  => 31250
  | 2  => 62500
  | 3  => 103125
  | 4  => 125000
  | 5  => 156250
  | 6  => 206250
  | 7  => 250000
  | 8  => 312500
  | 9  => 415625
  | 10 => 500000
  | 11 => 625000
  | _  => 31250

/-- `TurboMIDI::getNextHigherSpeed`. -/
def getNextHigherSpeed (speed : Speed) : Speed :=
  if speed < 11 then speed + 1 else speed

/--
Observable platform effects of a transition: raw bytes handed to
`sendMidiData`, baud-rate reconfigurations via `setBaudRate`, the two
host callbacks, and blocking delays via `delayMs`.
-/
inductive Event
  | Send (bytes : List Nat)
  | SetBaud (rate : Nat)
  | SpeedChanged (speed : Speed)
  | SpeedRequest
  | Delay (ms : Nat)
  deriving DecidableEq, Repr

/-- The persistent engine fields of `class TurboMIDI`. -/
structure TurboMIDI where
  role : DeviceRole
  localConfig : SpeedConfig
  currentSpeed : Speed
  lastActiveSenseTime : Nat
  lastMessageTime : Nat
  incomingBuffer : List Nat
  testState : TestState
  pendingTestSpeed : Speed
  pendingTargetSpeed : Speed
  deriving DecidableEq, Repr

/-- The `TurboMIDI` constructor (including `addSpeed(SPEED_1X, true)`). -/
def TurboMIDI.mkEngine (role : DeviceRole) : TurboMIDI :=
  { role := role
    localConfig := SpeedConfig.addSpeed {} 1 true
    currentSpeed := 1
    lastActiveSenseTime := 0
    lastMessageTime := 0
    incomingBuffer := []
    testState := TestState.IDLE
    pendingTestSpeed := 1
    pendingTargetSpeed := 1 }

/-- `TurboMIDI::setSupportedSpeed`. -/
def TurboMIDI.setSupportedSpeed (e : TurboMIDI) (speed : Speed) (certified : Bool) : TurboMIDI :=
  { e with localConfig := e.localConfig.addSpeed speed certified }

/-- `TurboMIDI::setSpeed`: record the speed, reconfigure the baud rate,
fire the speed-changed callback. -/
def TurboMIDI.setSpeed (e : TurboMIDI) (speed : Speed) : TurboMIDI × List Event :=
  ({ e with currentSpeed := speed },
   [Event.SetBaud (getBaudRate speed), Event.SpeedChanged speed])

/-- `TurboMIDI::sendActiveSense` at time `now`. -/
def TurboMIDI.sendActiveSense (e : TurboMIDI) (now : Nat) : TurboMIDI × List Event :=
  if e.currentSpeed ≠ 1 then
    ({ e with lastActiveSenseTime := now }, [Event.Send [ACTIVE_SENSING]])
  else
    (e, [])

/-- Wrap-safe `uint32_t` subtraction `a - b`. -/
def wsub (a b : Nat) : Nat :=
  (a % 2 ^ 32 + 2 ^ 32 - b % 2 ^ 32) % 2 ^ 32

/-- `TurboMIDI::checkTimeouts` at time `now`. -/
def TurboMIDI.checkTimeouts (e : TurboMIDI) (now : Nat) : TurboMIDI × List Event :=
  let r1 :=
    if e.currentSpeed ≠ 1 ∧ wsub now e.lastMessageTime > 300 then
      e.setSpeed 1
    else
      (e, [])
  let r2 :=
    if r1.1.currentSpeed ≠ 1 ∧ wsub now r1.1.lastActiveSenseTime > 250 then
      r1.1.sendActiveSense now
    else
      (r1.1, [])
  (r2.1, r1.2 ++ r2.2)

/-- The `case CommandID::SPEED_REQ` branch of
`TurboMIDI::processCompleteMessage`. -/
def TurboMIDI.handleSpeedReq (e : TurboMIDI) : TurboMIDI × List Event :=
  if e.role ≠ DeviceRole.MASTER then
    (e, [Event.Send (buildSpeedAnswer e.localConfig), Event.SpeedRequest])
  else (e, [])

/-- The `case CommandID::SPEED_NEG` branch of
`TurboMIDI::processCompleteMessage` (payload read from `buf`). -/
def TurboMIDI.handleSpeedNeg (e : TurboMIDI) (buf : List Nat) : TurboMIDI × List Event :=
  if e.role ≠ DeviceRole.MASTER ∧ buf.length ≥ 10 then
    if e.localConfig.hasSpeed (buf.getD 8 0) then
      if buf.getD 8 0 = 1 ∨
         (e.localConfig.isCertified (buf.getD 8 0) ∧ buf.getD 7 0 = buf.getD 8 0) then
        ((e.setSpeed (buf.getD 8 0)).1,
         Event.Send buildSpeedAck :: (e.setSpeed (buf.getD 8 0)).2)
      else
        ({ e with pendingTestSpeed := buf.getD 7 0
                  pendingTargetSpeed := buf.getD 8 0
                  testState := TestState.WAITING_FOR_TEST },
         [Event.Send buildSpeedAck])
    else (e, [])
  else (e, [])

/-- The `case CommandID::SPEED_TEST` branch of
`TurboMIDI::processCompleteMessage`. -/
def TurboMIDI.handleSpeedTest (e : TurboMIDI) (buf : List Nat) : TurboMIDI × List Event :=
  if e.role ≠ DeviceRole.MASTER ∧ e.testState = TestState.WAITING_FOR_TEST ∧
     buf.length ≥ 16 then
    if buf.getD 7 0 = 0x55 ∧ buf.getD 8 0 = 0x55 ∧ buf.getD 9 0 = 0x55 ∧
       buf.getD 10 0 = 0x55 ∧ buf.getD 11 0 = 0x00 ∧ buf.getD 12 0 = 0x00 ∧
       buf.getD 13 0 = 0x00 ∧ buf.getD 14 0 = 0x00 then
      ({ (e.setSpeed e.pendingTestSpeed).1 with testState := TestState.WAITING_FOR_TEST2 },
       (e.setSpeed e.pendingTestSpeed).2 ++ [Event.Send buildSpeedResult])
    else
      ({ (e.setSpeed 1).1 with testState := TestState.IDLE }, (e.setSpeed 1).2)
  else (e, [])

/-- The `case CommandID::SPEED_TEST2` branch of
`TurboMIDI::processCompleteMessage`. -/
def TurboMIDI.handleSpeedTest2 (e : TurboMIDI) : TurboMIDI × List Event :=
  if e.role ≠ DeviceRole.MASTER ∧ e.testState = TestState.WAITING_FOR_TEST2 then
    ({ (e.setSpeed e.pendingTargetSpeed).1 with testState := TestState.IDLE },
     Event.Send buildSpeedResult2 :: (e.setSpeed e.pendingTargetSpeed).2)
  else (e, [])

/-- The `case CommandID::SPEED_PUSH` branch of
`TurboMIDI::processCompleteMessage` (no role restriction). -/
def TurboMIDI.handleSpeedPush (e : TurboMIDI) (buf : List Nat) : TurboMIDI × List Event :=
  if buf.length ≥ 9 then
    if e.localConfig.hasSpeed (buf.getD 7 0) then e.setSpeed (buf.getD 7 0) else (e, [])
  else (e, [])

/-- `TurboMIDI::processCompleteMessage`: validate the accumulated frame
and dispatch the command handler (the manufacturer-id loop unrolled,
the switch cases split into the handler functions above). -/
def TurboMIDI.processCompleteMessage (e : TurboMIDI) : TurboMIDI × List Event :=
  if e.incomingBuffer.length < 8 then (e, [])
  else if ¬ (e.incomingBuffer.getD 0 0 = SYSEX_START ∧
             e.incomingBuffer.getD (e.incomingBuffer.length - 1) 0 = SYSEX_END) then (e, [])
  else if ¬ (e.incomingBuffer.getD 1 0 = 0x00 ∧ e.incomingBuffer.getD 2 0 = 0x20 ∧
             e.incomingBuffer.getD 3 0 = 0x3C ∧ e.incomingBuffer.getD 4 0 = 0x00 ∧
             e.incomingBuffer.getD 5 0 = 0x00) then (e, [])
  else if e.incomingBuffer.getD 6 0 = 0x10 then e.handleSpeedReq
  else if e.incomingBuffer.getD 6 0 = 0x12 then e.handleSpeedNeg e.incomingBuffer
  else if e.incomingBuffer.getD 6 0 = 0x14 then e.handleSpeedTest e.incomingBuffer
  else if e.incomingBuffer.getD 6 0 = 0x16 then e.handleSpeedTest2
  else if e.incomingBuffer.getD 6 0 = 0x20 then e.handleSpeedPush e.incomingBuffer
  else (e, [])

/-- `TurboMIDI::processIncomingByte` at time `now`. -/
def TurboMIDI.processIncomingByte (e : TurboMIDI) (now : Nat) (b : Nat) : TurboMIDI × List Event :=
  let e1 := { e with lastMessageTime := now }
  let e2 := if b = SYSEX_START then { e1 with incomingBuffer := [] } else e1
  let e3 := { e2 with incomingBuffer := e2.incomingBuffer ++ [b] }
  let r := if b = SYSEX_END then e3.processCompleteMessage else (e3, [])
  let e5 := if b = ACTIVE_SENSING then { r.1 with lastMessageTime := now } else r.1
  (e5, r.2)

/-- Feed a byte list through `processIncomingByte`, all at time `now`
(the per-byte loop of `TurboMIDI::handleIncomingData`). -/
def TurboMIDI.processBytes (e : TurboMIDI) (now : Nat) (bs : List Nat) : TurboMIDI × List Event :=
  bs.foldl (fun acc b =>
    let r := TurboMIDI.processIncomingByte acc.1 now b
    (r.1, acc.2 ++ r.2)) (e, [])

/-- The loop body of `TurboMIDI::getParsedMessages`: `msgs` are the
complete messages found so far, `cur` is `currentMsg`. -/
def parsedMessagesAux (msgs : List (List Nat)) (cur : List Nat) : List Nat → List (List Nat)
  | [] => msgs
  | b :: rest =>
    let cur0 := if b = SYSEX_START then [] else cur
    let cur1 := cur0 ++ [b]
    if b = SYSEX_END ∧ cur1 ≠ [] then
      parsedMessagesAux (msgs ++ [cur1]) cur1 rest
    else
      parsedMessagesAux msgs cur1 rest

/-- `TurboMIDI::getParsedMessages` applied to a buffer. -/
def getParsedMessages (buf : List Nat) : List (List Nat) :=
  parsedMessagesAux [] [] buf

/-- `TurboMIDI::parseSpeedAnswer` applied to a buffer: the first parsed
message of length ≥ 12 carrying command 0x11 yields the four
capability bytes. -/
def parseSpeedAnswer (buf : List Nat) : Option SpeedConfig :=
  (getParsedMessages buf).findSome? fun msg =>
    if msg.length ≥ 12 ∧ msg.getD 6 0 = 0x11 then
      some { mask1 := msg.getD 7 0
             mask2 := msg.getD 8 0
             cert1 := msg.getD 9 0
             cert2 := msg.getD 10 0 }
    else
      none

/--
Outcomes of the blocking waits inside `TurboMIDI::negotiateSpeed` and
`TurboMIDI::performSpeedTest`.  Those waits poll the external transport
(`waitForSpeedAnswer`, `waitForAck`, `waitForSpeedResult`,
`waitForSpeedResult2`); their results are supplied here as an oracle,
which is the only external input the control flow depends on.
-/
structure NegotiationEnv where
  answer : Option SpeedConfig
  ack : Bool
  result1 : Bool
  result2 : Bool
  deriving DecidableEq, Repr

/-- `TurboMIDI::performSpeedTest` (wait outcomes from `env`). -/
def TurboMIDI.performSpeedTest (e : TurboMIDI) (env : NegotiationEnv)
    (testSpeed targetSpeed : Speed) : TurboMIDI × List Event × Bool :=
  let evs0 := [Event.Send (List.replicate 16 0), Event.Delay 10]
  let r1 := e.setSpeed testSpeed
  let evs1 := evs0 ++ r1.2 ++ [Event.Send buildSpeedTest]
  if ¬ env.result1 then
    let r2 := r1.1.setSpeed 1
    (r2.1, evs1 ++ r2.2, false)
  else
    let evs2 := evs1 ++ [Event.Send buildSpeedTest2]
    if ¬ env.result2 then
      let r2 := r1.1.setSpeed 1
      (r2.1, evs2 ++ r2.2, false)
    else
      let r2 := r1.1.setSpeed targetSpeed
      (r2.1, evs2 ++ r2.2, true)

/-- The test-speed determination step of `TurboMIDI::negotiateSpeed`
(source lines 232–238); `none` is the early `return false`. -/
def determineTestSpeed (remoteConfig : SpeedConfig) (targetSpeed : Speed) : Option Speed :=
  if ¬ remoteConfig.isCertified targetSpeed ∧ targetSpeed ≠ 1 then
    let t := getNextHigherSpeed targetSpeed
    if t = targetSpeed then none else some t
  else
    some targetSpeed

/-- `TurboMIDI::negotiateSpeed` (wait outcomes from `env`; the unused
`timeoutMs` parameter is kept for signature fidelity). -/
def TurboMIDI.negotiateSpeed (e : TurboMIDI) (env : NegotiationEnv)
    (targetSpeed : Speed) (timeoutMs : Nat := 30) : TurboMIDI × List Event × Bool :=
  if e.role = DeviceRole.SLAVE then (e, [], false)
  else
    let _ := timeoutMs
    let evs0 := [Event.Send buildSpeedReq]
    match env.answer with
    | none => (e, evs0, false)
    | some remoteConfig =>
      if ¬ remoteConfig.hasSpeed targetSpeed then (e, evs0, false)
      else
        match determineTestSpeed remoteConfig targetSpeed with
        | none => (e, evs0, false)
        | some testSpeed =>
          let evs1 := evs0 ++ [Event.Send (buildSpeedNeg testSpeed targetSpeed)]
          if ¬ env.ack then (e, evs1, false)
          else if targetSpeed ≠ 1 ∧ testSpeed ≠ targetSpeed then
            let r := e.performSpeedTest env testSpeed targetSpeed
            if r.2.2 then
              let r2 := r.1.setSpeed targetSpeed
              (r2.1, evs1 ++ r.2.1 ++ r2.2, true)
            else
              (r.1, evs1 ++ r.2.1, false)
          else
            let r2 := e.setSpeed targetSpeed
            (r2.1, evs1 ++ r2.2, true)

/-- `TurboMIDI::pushSpeed`. -/
def TurboMIDI.pushSpeed (e : TurboMIDI) (speed : Speed) : TurboMIDI × List Event :=
  if e.role = DeviceRole.SLAVE then (e, [])
  else
    let r := e.setSpeed speed
    (r.1, Event.Send (buildSpeedPush speed) :: r.2)

end TurboMidi


namespace TurboMidi

/-! ## Helper lemmas -/

/-- `handleSpeedReq` touches neither the receive buffer nor `lastMessageTime`. -/
theorem handleSpeedReq_preserves (e : TurboMIDI) :
    e.handleSpeedReq.1.incomingBuffer = e.incomingBuffer ∧
    e.handleSpeedReq.1.lastMessageTime = e.lastMessageTime := by
  unfold TurboMIDI.handleSpeedReq
  split_ifs <;> exact ⟨rfl, rfl⟩

/-- `handleSpeedNeg` touches neither the receive buffer nor `lastMessageTime`. -/
theorem handleSpeedNeg_preserves (e : TurboMIDI) (buf : List Nat) :
    (e.handleSpeedNeg buf).1.incomingBuffer = e.incomingBuffer ∧
    (e.handleSpeedNeg buf).1.lastMessageTime = e.lastMessageTime := by
  unfold TurboMIDI.handleSpeedNeg TurboMIDI.setSpeed
  split_ifs <;> exact ⟨rfl, rfl⟩

/-- `handleSpeedTest` touches neither the receive buffer nor `lastMessageTime`. -/
theorem handleSpeedTest_preserves (e : TurboMIDI) (buf : List Nat) :
    (e.handleSpeedTest buf).1.incomingBuffer = e.incomingBuffer ∧
    (e.handleSpeedTest buf).1.lastMessageTime = e.lastMessageTime := by
  unfold TurboMIDI.handleSpeedTest TurboMIDI.setSpeed
  split_ifs <;> exact ⟨rfl, rfl⟩

/-- `handleSpeedTest2` touches neither the receive buffer nor `lastMessageTime`. -/
theorem handleSpeedTest2_preserves (e : TurboMIDI) :
    e.handleSpeedTest2.1.incomingBuffer = e.incomingBuffer ∧
    e.handleSpeedTest2.1.lastMessageTime = e.lastMessageTime := by
  unfold TurboMIDI.handleSpeedTest2 TurboMIDI.setSpeed
  split_ifs <;> exact ⟨rfl, rfl⟩

/-- `handleSpeedPush` touches neither the receive buffer nor `lastMessageTime`. -/
theorem handleSpeedPush_preserves (e : TurboMIDI) (buf : List Nat) :
    (e.handleSpeedPush buf).1.incomingBuffer = e.incomingBuffer ∧
    (e.handleSpeedPush buf).1.lastMessageTime = e.lastMessageTime := by
  unfold TurboMIDI.handleSpeedPush TurboMIDI.setSpeed
  split_ifs <;> exact ⟨rfl, rfl⟩

/-- `processCompleteMessage` touches neither the receive buffer nor
`lastMessageTime`. -/
theorem processCompleteMessage_preserves (e : TurboMIDI) :
    e.processCompleteMessage.1.incomingBuffer = e.incomingBuffer ∧
    e.processCompleteMessage.1.lastMessageTime = e.lastMessageTime := by
  unfold TurboMIDI.processCompleteMessage
  split_ifs <;>
    first
      | exact ⟨rfl, rfl⟩
      | exact handleSpeedReq_preserves e
      | exact handleSpeedNeg_preserves e e.incomingBuffer
      | exact handleSpeedTest_preserves e e.incomingBuffer
      | exact handleSpeedTest2_preserves e
      | exact handleSpeedPush_preserves e e.incomingBuffer

/-! ## Concrete fixtures (the engines and frames of the bundled tests) -/

/-- A slave engine supporting 4x uncertified, as in the bundled tests. -/
def slaveWith4x : TurboMIDI :=
  (TurboMIDI.mkEngine DeviceRole.SLAVE).setSupportedSpeed 4 false

/-- `slaveWith4x` after receiving a well-formed `SpeedPush(4x)` frame:
it is committed to 4x. -/
def slaveAt4x : TurboMIDI :=
  (slaveWith4x.processBytes 0 [0xF0, 0x00, 0x20, 0x3C, 0x00, 0x00, 0x20, 0x04, 0xF7]).1

/-! ## Claim theorems -/

/-- Claim C1 (code evaluated at the failing input).  The claim states
that `has(1x)` and `is_certified(1x)` always return true; in the source
both `hasSpeed` and `isCertified` fall through to `default: return
false` for `SPEED_1X` (and the constructor's `addSpeed(SPEED_1X, true)`
is a no-op), so both queries return false for every capability set and
in particular for a freshly constructed engine. -/
theorem hasSpeed_one_always_false :
    (∀ c : SpeedConfig, c.hasSpeed 1 = false ∧ c.isCertified 1 = false) ∧
    (∀ c : SpeedConfig, ∀ cert : Bool, c.addSpeed 1 cert = c) ∧
    (TurboMIDI.mkEngine DeviceRole.ANY).localConfig.hasSpeed 1 = false ∧
    (TurboMIDI.mkEngine DeviceRole.ANY).localConfig.isCertified 1 = false := by
  exact ⟨fun c => ⟨rfl, rfl⟩, fun c cert => rfl, rfl, rfl⟩

/-- Claim C2 (code evaluated at the failing input).  The claim states
that a well-formed `SpeedPush` frame with speed id 1 always commits the
engine to 1x; in the source `hasSpeed(SPEED_1X)` is false, so the push
is ignored: an engine sitting at 4x that receives
`F0 00 20 3C 00 00 20 01 F7` stays at 4x and produces no platform
effect at all. -/
theorem speedPush_one_ignored :
    slaveAt4x.currentSpeed = 4 ∧
    slaveAt4x.localConfig.hasSpeed 1 = false ∧
    (slaveAt4x.processBytes 0 [0xF0, 0x00, 0x20, 0x3C, 0x00, 0x00, 0x20, 0x01, 0xF7]).2 = [] ∧
    (slaveAt4x.processBytes 0
        [0xF0, 0x00, 0x20, 0x3C, 0x00, 0x00, 0x20, 0x01, 0xF7]).1.currentSpeed = 4 := by
  decide

/-- Claim C10: a slave-role engine refuses both master entry points:
`negotiateSpeed` returns false immediately and `pushSpeed` returns
immediately, with no platform effect and the engine unchanged. -/
theorem slave_entry_points_noop (e : TurboMIDI) (env : NegotiationEnv)
    (target timeoutMs speed : Nat) (h : e.role = DeviceRole.SLAVE) :
    e.negotiateSpeed env target timeoutMs = (e, [], false) ∧
    e.pushSpeed speed = (e, []) := by
  unfold TurboMIDI.negotiateSpeed TurboMIDI.pushSpeed
  simp [h]

/-- Witness for `slave_entry_points_noop` at a concrete slave engine. -/
theorem slave_entry_points_noop_witness :
    (TurboMIDI.mkEngine DeviceRole.SLAVE).negotiateSpeed ⟨none, false, false, false⟩ 4 30 =
      (TurboMIDI.mkEngine DeviceRole.SLAVE, [], false) ∧
    (TurboMIDI.mkEngine DeviceRole.SLAVE).pushSpeed 4 = (TurboMIDI.mkEngine DeviceRole.SLAVE, []) :=
  slave_entry_points_noop (TurboMIDI.mkEngine DeviceRole.SLAVE) ⟨none, false, false, false⟩ 4 30 4
    (by decide)

end TurboMidi

namespace TurboMidi

/-- One step of the reassembler, fully characterised: every byte
refreshes `lastMessageTime`, every byte is appended to the receive
buffer (F0 first clears it), and the dispatcher runs exactly when the
byte is F7. -/
theorem processIncomingByte_state (e : TurboMIDI) (now b : Nat) :
    (e.processIncomingByte now b).1.lastMessageTime = now ∧
    (e.processIncomingByte now b).1.incomingBuffer
      = (if b = SYSEX_START then [] else e.incomingBuffer) ++ [b] ∧
    (e.processIncomingByte now b).2
      = (if b = SYSEX_END then
           ({ e with lastMessageTime := now,
                     incomingBuffer := e.incomingBuffer ++ [b] }).processCompleteMessage.2
         else []) := by
  rcases eq_or_ne b SYSEX_START with h0 | h0
  · subst h0
    refine ⟨rfl, rfl, ?_⟩
    norm_num [SYSEX_START, SYSEX_END, TurboMIDI.processIncomingByte]
  · rcases eq_or_ne b SYSEX_END with h7 | h7
    · subst h7
      have hfe : SYSEX_END ≠ ACTIVE_SENSING := by norm_num [SYSEX_END, ACTIVE_SENSING]
      have h0' : SYSEX_END ≠ SYSEX_START := by norm_num [SYSEX_END, SYSEX_START]
      simp only [TurboMIDI.processIncomingByte, if_neg h0', if_pos rfl, if_neg hfe]
      refine ⟨?_, ?_, rfl⟩
      · exact (processCompleteMessage_preserves _).2
      · exact (processCompleteMessage_preserves _).1
    · rcases eq_or_ne b ACTIVE_SENSING with hfe | hfe
      · subst hfe
        simp [TurboMIDI.processIncomingByte, h0, h7]
      · simp [TurboMIDI.processIncomingByte, h0, h7, hfe]

set_option maxRecDepth 10000 in
/-- Claim C4 counterexample: the receive buffer has no cap.  Feeding F0
followed by 256 further bytes with no F7 leaves 257 bytes in
`rx_buffer`; no reset at 256 (or any other bound) occurs. -/
theorem rx_buffer_exceeds_cap :
    ((TurboMIDI.mkEngine DeviceRole.SLAVE).processBytes 0
        (SYSEX_START :: List.replicate 256 0x00)).1.incomingBuffer.length = 257 := by
  decide

set_option maxRecDepth 10000 in
/-- Claim C4 (amended): `rx_buffer` is unbounded.  Each received byte
is appended unconditionally (an F0 clears the buffer first); there is
no overflow check, so the buffer exceeds 256 bytes when fed F0 and 256
non-F7 bytes. -/
theorem rx_buffer_unbounded :
    (∀ (e : TurboMIDI) (now b : Nat),
        (e.processIncomingByte now b).1.incomingBuffer
          = (if b = SYSEX_START then [] else e.incomingBuffer) ++ [b]) ∧
    ((TurboMIDI.mkEngine DeviceRole.SLAVE).processBytes 0
        (SYSEX_START :: List.replicate 256 0x00)).1.incomingBuffer.length = 257 := by
  refine ⟨fun e now b => (processIncomingByte_state e now b).2.1, by decide⟩

/-- Claim C5 counterexample: a byte received outside any frame is not
ignored.  On a fresh engine the byte 0x42 (no prior F0) is appended to
`rx_buffer` and refreshes `lastMessageTime` even though it is not 0xFE;
and on an engine whose buffer holds a completed `SpeedPush(4x)` frame,
a stray F7 arriving after the completed frame and before any new F0
re-dispatches the handler (the commit fires again). -/
theorem stray_f7_redispatches :
    ((TurboMIDI.mkEngine DeviceRole.SLAVE).processIncomingByte 5 0x42).1.incomingBuffer = [0x42] ∧
    ((TurboMIDI.mkEngine DeviceRole.SLAVE).processIncomingByte 5 0x42).1.lastMessageTime = 5 ∧
    (slaveAt4x.processIncomingByte 0 0xF7).2 = [Event.SetBaud 125000, Event.SpeedChanged 4] := by
  decide

/-- Claim C5 (amended): every received byte — inside a frame or not —
is appended to `rx_buffer` (F0 clears first) and refreshes
`last_rx_time`, and the dispatcher runs exactly on F7 over the whole
retained buffer, so bytes after a completed frame can cause a
re-dispatch when a later F7 arrives without an intervening F0. -/
theorem bytes_outside_frame_processed (e : TurboMIDI) (now b : Nat) :
    (e.processIncomingByte now b).1.lastMessageTime = now ∧
    (e.processIncomingByte now b).1.incomingBuffer
      = (if b = SYSEX_START then [] else e.incomingBuffer) ++ [b] ∧
    (e.processIncomingByte now b).2
      = (if b = SYSEX_END then
           ({ e with lastMessageTime := now,
                     incomingBuffer := e.incomingBuffer ++ [b] }).processCompleteMessage.2
         else []) :=
  processIncomingByte_state e now b

/-- Claim C7: the active-sensing watchdog.  At a speed other than 1x, a
tick whose receive gap exceeds 300 ms commits the engine to 1x (baud
31250, speed-changed callback fired); a tick with a gap of at most
300 ms leaves the speed unchanged; and at 1x a tick does nothing at all
(in particular it never transmits 0xFE). -/
theorem watchdog_revert (e : TurboMIDI) (now : Nat) :
    (e.currentSpeed ≠ 1 → wsub now e.lastMessageTime > 300 →
       e.checkTimeouts now =
         ({ e with currentSpeed := 1 }, [Event.SetBaud 31250, Event.SpeedChanged 1])) ∧
    (e.currentSpeed ≠ 1 → wsub now e.lastMessageTime ≤ 300 →
       (e.checkTimeouts now).1.currentSpeed = e.currentSpeed) ∧
    (e.currentSpeed = 1 → e.checkTimeouts now = (e, [])) := by
  refine ⟨fun h1 h2 => ?_, fun h1 h2 => ?_, fun h1 => ?_⟩
  · simp [TurboMIDI.checkTimeouts, TurboMIDI.setSpeed, h1, h2, getBaudRate]
  · have h2' : ¬ (300 < wsub now e.lastMessageTime) := by omega
    by_cases h3 : wsub now e.lastActiveSenseTime > 250
    · simp [TurboMIDI.checkTimeouts, TurboMIDI.sendActiveSense, h1, h2', h3]
    · simp [TurboMIDI.checkTimeouts, TurboMIDI.sendActiveSense, h1, h2', h3]
  · simp [TurboMIDI.checkTimeouts, h1]

/-- Witness for `watchdog_revert`: a slave pushed to 4x at t = 0 still
runs 4x when ticked at t = 250 ms, reverts to 1x with baud 31250 when
ticked at t = 350 ms, and a fresh 1x engine's tick is a no-op. -/
theorem watchdog_revert_witness :
    ({ TurboMIDI.mkEngine DeviceRole.SLAVE with currentSpeed := 4 } : TurboMIDI).checkTimeouts 350 =
      ({ TurboMIDI.mkEngine DeviceRole.SLAVE with currentSpeed := 1 },
       [Event.SetBaud 31250, Event.SpeedChanged 1]) ∧
    (({ TurboMIDI.mkEngine DeviceRole.SLAVE with currentSpeed := 4 } : TurboMIDI).checkTimeouts
        250).1.currentSpeed = 4 ∧
    (TurboMIDI.mkEngine DeviceRole.SLAVE).checkTimeouts 999 =
      (TurboMIDI.mkEngine DeviceRole.SLAVE, []) := by
  refine ⟨(watchdog_revert _ 350).1 (by decide) (by decide),
          (watchdog_revert _ 250).2.1 (by decide) (by decide),
          (watchdog_revert _ 999).2.2 (by decide)⟩

end TurboMidi

namespace TurboMidi

/-- A slave engine with 4x supported uncertified and 8x (wire id 7)
certified, as in the full slave test sequence of the bundled tests. -/
def slaveTester : TurboMIDI :=
  ((TurboMIDI.mkEngine DeviceRole.SLAVE).setSupportedSpeed 4 false).setSupportedSpeed 7 true

/-- `slaveTester` after injecting `SpeedNegotiate(test=8x, target=4x)`. -/
def afterNegotiate : TurboMIDI × List Event :=
  slaveTester.processBytes 0 [0xF0, 0x00, 0x20, 0x3C, 0x00, 0x00, 0x12, 0x07, 0x04, 0xF7]

/-- The engine above after further injecting `SpeedTest` with the
correct pattern. -/
def afterSpeedTest : TurboMIDI × List Event :=
  afterNegotiate.1.processBytes 0
    [0xF0, 0x00, 0x20, 0x3C, 0x00, 0x00, 0x14,
     0x55, 0x55, 0x55, 0x55, 0x00, 0x00, 0x00, 0x00, 0xF7]

/-- The engine above after further injecting `SpeedTest2`. -/
def afterSpeedTest2 : TurboMIDI × List Event :=
  afterSpeedTest.1.processBytes 0 [0xF0, 0x00, 0x20, 0x3C, 0x00, 0x00, 0x16, 0xF7]

/-- Claim C8: the full slave test sequence.  A slave with 4x supported
uncertified and 8x certified: on `SpeedNegotiate(test=8x, target=4x)`
it emits exactly SpeedAck and enters `WAITING_FOR_TEST` (still at 1x);
on `SpeedTest` with the correct pattern it commits to 8x (baud 250000),
emits SpeedResult carrying the identical pattern, and enters
`WAITING_FOR_TEST2`; on `SpeedTest2` it emits SpeedResult2, commits to
4x (baud 125000), and returns to `IDLE`. -/
theorem slave_full_test_sequence :
    afterNegotiate.2 = [Event.Send [0xF0, 0x00, 0x20, 0x3C, 0x00, 0x00, 0x13, 0xF7]] ∧
    afterNegotiate.1.testState = TestState.WAITING_FOR_TEST ∧
    afterNegotiate.1.currentSpeed = 1 ∧
    afterSpeedTest.2 =
      [Event.SetBaud 250000, Event.SpeedChanged 7,
       Event.Send [0xF0, 0x00, 0x20, 0x3C, 0x00, 0x00, 0x15,
                   0x55, 0x55, 0x55, 0x55, 0x00, 0x00, 0x00, 0x00, 0xF7]] ∧
    afterSpeedTest.1.testState = TestState.WAITING_FOR_TEST2 ∧
    afterSpeedTest.1.currentSpeed = 7 ∧
    afterSpeedTest2.2 =
      [Event.Send [0xF0, 0x00, 0x20, 0x3C, 0x00, 0x00, 0x17, 0xF7],
       Event.SetBaud 125000, Event.SpeedChanged 4] ∧
    afterSpeedTest2.1.testState = TestState.IDLE ∧
    afterSpeedTest2.1.currentSpeed = 4 := by
  decide

end TurboMidi

namespace TurboMidi

/-- A remote capability set advertising only 4x, uncertified. -/
def remoteOnly4x : SpeedConfig := { mask1 := 0x04, mask2 := 0, cert1 := 0, cert2 := 0 }

/-- Claim C6 counterexample: the master does not fail when the remote
advertises no speed higher than the uncertified target.  With a remote
supporting only 4x (nothing above it) and a cooperating link,
`negotiateSpeed(4x)` succeeds — the probe is taken at the enumeration
successor 5x without consulting the remote's capabilities. -/
theorem negotiate_succeeds_without_higher_support :
    remoteOnly4x.hasSpeed 4 = true ∧
    remoteOnly4x.isCertified 4 = false ∧
    (remoteOnly4x.hasSpeed 5 = false ∧ remoteOnly4x.hasSpeed 6 = false ∧
     remoteOnly4x.hasSpeed 7 = false ∧ remoteOnly4x.hasSpeed 8 = false ∧
     remoteOnly4x.hasSpeed 9 = false ∧ remoteOnly4x.hasSpeed 10 = false ∧
     remoteOnly4x.hasSpeed 11 = false) ∧
    ((TurboMIDI.mkEngine DeviceRole.MASTER).negotiateSpeed
        ⟨some remoteOnly4x, true, true, true⟩ 4 30).2.2 = true := by
  decide

/-- Claim C6 (amended): when the remote advertises the target but does
not certify it and the target is not 1x, the test speed is the plain
enumeration successor `target + 1` regardless of whether the remote
supports it (the SpeedNegotiate frame carries it on every continuation
of the run), and the early failure at this step occurs only when the
target is the top value 20x (wire id 11), where no successor exists. -/
theorem uncertified_probe_successor (e : TurboMIDI) (env : NegotiationEnv)
    (remote : SpeedConfig) (target timeoutMs : Nat)
    (hrole : e.role ≠ DeviceRole.SLAVE)
    (hans : env.answer = some remote)
    (hhas : remote.hasSpeed target = true)
    (hcert : remote.isCertified target = false)
    (h1 : target ≠ 1) :
    (target < 11 →
       Event.Send (buildSpeedNeg (target + 1) target) ∈
         (e.negotiateSpeed env target timeoutMs).2.1) ∧
    (target = 11 →
       e.negotiateSpeed env target timeoutMs = (e, [Event.Send buildSpeedReq], false)) := by
  constructor
  · intro hlt
    have hne : target + 1 ≠ target := by omega
    have hdet : determineTestSpeed remote target = some (target + 1) := by
      simp [determineTestSpeed, getNextHigherSpeed, hcert, h1, hlt, hne]
    by_cases hack : env.ack
    · by_cases hres : (e.performSpeedTest env (target + 1) target).2.2
      · simp [TurboMIDI.negotiateSpeed, hrole, hans, hhas, hdet, hack, hres, h1, hne]
      · simp [TurboMIDI.negotiateSpeed, hrole, hans, hhas, hdet, hack, hres, h1, hne]
    · simp [TurboMIDI.negotiateSpeed, hrole, hans, hhas, hdet, hack]
  · intro h11
    subst h11
    have hdet : determineTestSpeed remote 11 = none := by
      simp [determineTestSpeed, getNextHigherSpeed, hcert]
    simp [TurboMIDI.negotiateSpeed, hrole, hans, hhas, hdet]

/-- Witness for `uncertified_probe_successor` at the concrete remote
advertising only 4x uncertified and target 4x. -/
theorem uncertified_probe_successor_witness :
    ((4 : Nat) < 11 →
       Event.Send (buildSpeedNeg 5 4) ∈
         ((TurboMIDI.mkEngine DeviceRole.MASTER).negotiateSpeed
             ⟨some remoteOnly4x, true, true, true⟩ 4 30).2.1) ∧
    ((4 : Nat) = 11 →
       (TurboMIDI.mkEngine DeviceRole.MASTER).negotiateSpeed
           ⟨some remoteOnly4x, true, true, true⟩ 4 30 =
         (TurboMIDI.mkEngine DeviceRole.MASTER, [Event.Send buildSpeedReq], false)) :=
  uncertified_probe_successor (TurboMIDI.mkEngine DeviceRole.MASTER)
    ⟨some remoteOnly4x, true, true, true⟩ remoteOnly4x 4 30
    (by decide) rfl (by decide) (by decide) (by decide)

end TurboMidi

namespace TurboMidi

/-- The exact condition under which `processCompleteMessage` reaches a
command handler: minimum total length 8, F0 first, F7 last, the
Elektron manufacturer prefix, a handled command id, and that command's
minimum length (10 for SpeedNegotiate, 16 for SpeedTest, 9 for
SpeedPush) — a lower bound, not an exact length. -/
def frameWouldDispatch (buf : List Nat) : Prop :=
  buf.length ≥ 8 ∧
  buf.getD 0 0 = SYSEX_START ∧ buf.getD (buf.length - 1) 0 = SYSEX_END ∧
  buf.getD 1 0 = 0x00 ∧ buf.getD 2 0 = 0x20 ∧ buf.getD 3 0 = 0x3C ∧
  buf.getD 4 0 = 0x00 ∧ buf.getD 5 0 = 0x00 ∧
  (buf.getD 6 0 = 0x10 ∨
   (buf.getD 6 0 = 0x12 ∧ buf.length ≥ 10) ∨
   (buf.getD 6 0 = 0x14 ∧ buf.length ≥ 16) ∨
   buf.getD 6 0 = 0x16 ∨
   (buf.getD 6 0 = 0x20 ∧ buf.length ≥ 9))

instance (buf : List Nat) : Decidable (frameWouldDispatch buf) := by
  unfold frameWouldDispatch
  infer_instance

/-- `handleSpeedNeg` ignores a frame shorter than 10 bytes. -/
theorem handleSpeedNeg_short (e : TurboMIDI) (buf : List Nat) (h : ¬ buf.length ≥ 10) :
    e.handleSpeedNeg buf = (e, []) := by
  unfold TurboMIDI.handleSpeedNeg
  rw [if_neg]
  rintro ⟨-, hl⟩
  exact h hl

/-- `handleSpeedTest` ignores a frame shorter than 16 bytes. -/
theorem handleSpeedTest_short (e : TurboMIDI) (buf : List Nat) (h : ¬ buf.length ≥ 16) :
    e.handleSpeedTest buf = (e, []) := by
  unfold TurboMIDI.handleSpeedTest
  rw [if_neg]
  rintro ⟨-, -, hl⟩
  exact h hl

/-- `handleSpeedPush` ignores a frame shorter than 9 bytes. -/
theorem handleSpeedPush_short (e : TurboMIDI) (buf : List Nat) (h : ¬ buf.length ≥ 9) :
    e.handleSpeedPush buf = (e, []) := by
  unfold TurboMIDI.handleSpeedPush
  rw [if_neg h]

/-- Claim C3 (amended): a candidate frame reaches a handler only if the
first byte is F0, the last is F7, bytes 1..5 are the manufacturer
prefix, byte 6 is a handled command id, and the total length is at
least that command's expected length; any frame failing one of these is
dropped silently with no state change and no output.  (Length is
checked as a lower bound: longer-than-expected frames are accepted, see
the counterexample.) -/
theorem frame_reject_characterization (e : TurboMIDI)
    (h : ¬ frameWouldDispatch e.incomingBuffer) :
    e.processCompleteMessage = (e, []) := by
  unfold TurboMIDI.processCompleteMessage
  split_ifs with h1 h2 h3 h4 h5 h6 h7 h8
  · rfl
  · exact absurd ⟨by omega, h2.1, h2.2, h3.1, h3.2.1, h3.2.2.1, h3.2.2.2.1, h3.2.2.2.2,
      Or.inl h4⟩ h
  · by_cases hlen : e.incomingBuffer.length ≥ 10
    · exact absurd ⟨by omega, h2.1, h2.2, h3.1, h3.2.1, h3.2.2.1, h3.2.2.2.1, h3.2.2.2.2,
        Or.inr (Or.inl ⟨h5, hlen⟩)⟩ h
    · exact handleSpeedNeg_short e e.incomingBuffer hlen
  · by_cases hlen : e.incomingBuffer.length ≥ 16
    · exact absurd ⟨by omega, h2.1, h2.2, h3.1, h3.2.1, h3.2.2.1, h3.2.2.2.1, h3.2.2.2.2,
        Or.inr (Or.inr (Or.inl ⟨h6, hlen⟩))⟩ h
    · exact handleSpeedTest_short e e.incomingBuffer hlen
  · exact absurd ⟨by omega, h2.1, h2.2, h3.1, h3.2.1, h3.2.2.1, h3.2.2.2.1, h3.2.2.2.2,
      Or.inr (Or.inr (Or.inr (Or.inl h7)))⟩ h
  · by_cases hlen : e.incomingBuffer.length ≥ 9
    · exact absurd ⟨by omega, h2.1, h2.2, h3.1, h3.2.1, h3.2.2.1, h3.2.2.2.1, h3.2.2.2.2,
        Or.inr (Or.inr (Or.inr (Or.inr ⟨h8, hlen⟩)))⟩ h
    · exact handleSpeedPush_short e e.incomingBuffer hlen
  · rfl
  · rfl
  · rfl

/-- Witness for `frame_reject_characterization`: a frame whose third
manufacturer byte is wrong (0x3D) is rejected with no state change. -/
theorem frame_reject_characterization_witness :
    ¬ frameWouldDispatch [0xF0, 0x00, 0x20, 0x3D, 0x00, 0x00, 0x20, 0x02, 0xF7] ∧
    ({ TurboMIDI.mkEngine DeviceRole.SLAVE with
        incomingBuffer := [0xF0, 0x00, 0x20, 0x3D, 0x00, 0x00, 0x20, 0x02, 0xF7] } :
      TurboMIDI).processCompleteMessage =
      ({ TurboMIDI.mkEngine DeviceRole.SLAVE with
          incomingBuffer := [0xF0, 0x00, 0x20, 0x3D, 0x00, 0x00, 0x20, 0x02, 0xF7] }, []) :=
  ⟨by decide, frame_reject_characterization _ (by decide)⟩

/-- Claim C3 counterexample: a `SpeedPush` frame of 10 bytes (one more
than the expected 9, an extra 0x00 before F7) is not rejected: a slave
supporting 4x dispatches it and commits to 4x. -/
theorem long_frame_dispatches :
    (slaveWith4x.processBytes 0
        [0xF0, 0x00, 0x20, 0x3C, 0x00, 0x00, 0x20, 0x04, 0x00, 0xF7]).2 =
      [Event.SetBaud 125000, Event.SpeedChanged 4] ∧
    (slaveWith4x.processBytes 0
        [0xF0, 0x00, 0x20, 0x3C, 0x00, 0x00, 0x20, 0x04, 0x00, 0xF7]).1.currentSpeed = 4 := by
  decide

end TurboMidi

namespace TurboMidi

/-- Claim C9 counterexample: the 4-byte round trip fails when a
capability byte equals 0xF0.  Building a SpeedAnswer from
`(0xF0, 0, 0, 0)` and parsing it back yields nothing at all: the 0xF0
payload byte restarts message reassembly inside `getParsedMessages`, so
no message of length ≥ 12 survives. -/
theorem speedAnswer_roundtrip_fails_on_F0 :
    parseSpeedAnswer (buildSpeedAnswer { mask1 := 0xF0, mask2 := 0, cert1 := 0, cert2 := 0 })
      = none := by
  decide

/-- Claim C9 (amended): building a SpeedAnswer frame from a capability
set and parsing it back recovers exactly the same four bytes, provided
none of the four bytes equals 0xF0 (every capability set reachable
through `addSpeed` satisfies this, its bytes being below 0x80). -/
theorem speedAnswer_roundtrip (m1 m2 c1 c2 : Nat)
    (h1 : m1 ≠ 0xF0) (h2 : m2 ≠ 0xF0) (h3 : c1 ≠ 0xF0) (h4 : c2 ≠ 0xF0) :
    parseSpeedAnswer (buildSpeedAnswer ⟨m1, m2, c1, c2⟩) = some ⟨m1, m2, c1, c2⟩ := by
  rcases eq_or_ne m1 0xF7 with rfl | k1 <;>
  rcases eq_or_ne m2 0xF7 with rfl | k2 <;>
  rcases eq_or_ne c1 0xF7 with rfl | k3 <;>
  rcases eq_or_ne c2 0xF7 with rfl | k4 <;>
  simp_all [parseSpeedAnswer, getParsedMessages, buildSpeedAnswer, buildCommand, ELEKTRON_ID,
        SYSEX_START, SYSEX_END, parsedMessagesAux, List.findSome?]

/-- Witness for `speedAnswer_roundtrip` at the capability bytes of the
bundled tests, `(0x55, 0x07, 0x15, 0x02)`. -/
theorem speedAnswer_roundtrip_witness :
    parseSpeedAnswer (buildSpeedAnswer ⟨0x55, 0x07, 0x15, 0x02⟩) =
      some ⟨0x55, 0x07, 0x15, 0x02⟩ :=
  speedAnswer_roundtrip 0x55 0x07 0x15 0x02 (by decide) (by decide) (by decide) (by decide)

end TurboMidi
